import Mathlib

/-
Verification of the AIDataQualityGuardian quality-evaluation pipeline.

The pipeline's core lives in `src/dq` and `src/tests_generator`:
`QualityRules.check`, `AnomalyDetector.detect`, `Validators.validate`,
`ScoreCalculator.calculate_score` and `TestBuilder.build_tests`.  All of
them are pure functions over an in-memory metrics mapping, so they embed
directly as Lean functions.

Modelling conventions:
* A metric value is `Option ℚ`: `none` is Python's `None` null marker and
  `some q` a finite number.  Python's numbers are modelled as exact
  rationals; the literal `0.3` in `anomaly_detector.py` is embedded as
  `3/10`.
* A metrics mapping (Python `dict`, insertion ordered) is a
  `List (String × List (Option ℚ))`; `expected_ranges` is a
  `List (String × (ℚ × ℚ))` queried with `List.lookup` (an absent or
  `None` dict is the empty list).
* An issue dict carries `metric` and `issue`.  The human-readable
  `details` string (whose exact text depends on Python float/list
  formatting) is not modelled: no pipeline component reads it back —
  scoring keys on `issue` only and test generation on `metric`/`issue`.
* `abs(last - mean) > 2 * stdev` with `stdev = sqrt(variance)` is embedded
  by the equivalent rational comparison `(last - mean)^2 > 4 * variance`
  (together with `stdev > 0 ↔ variance > 0`); the equivalence with the
  square-root form is proved in `detect_characterization`.
* Python string lowering and containment (`s.lower()`, `sub in s`) are
  embedded character-wise over `String.data`.
-/

set_option autoImplicit false
set_option linter.unnecessarySeqFocus false

namespace DQG

/-! ## String utilities (Python `str.lower`, `in`, `.replace(" ", "_")`) -/

/-- Python `s.lower()`, character-wise (all strings involved are ASCII). -/
def strLower (s : String) : String :=
  String.mk (s.data.map Char.toLower)

/-- `dashboard.lower().replace(" ", "_")` from `test_builder.py`:
lower-case and replace spaces by underscores. -/
def safeName (s : String) : String :=
  String.mk (s.data.map fun c => if c = ' ' then '_' else c.toLower)

/-- Occurrence of `needle` as a contiguous run inside `hay`. -/
def charsContain (needle : List Char) : List Char → Bool
  | [] => needle.isEmpty
  | c :: cs => needle.isPrefixOf (c :: cs) || charsContain needle cs

/-- Python `needle in hay` for strings. -/
def strContains (hay needle : String) : Bool :=
  charsContain needle.data hay.data

/-! ## Data model -/

/-- An issue record as produced by the check engines
(`{"metric": ..., "issue": ..., "details": ...}`); the free-form
`details` text is not modelled (see the header comment). -/
structure Issue where
  metric : String
  issue : String
deriving DecidableEq, Repr

/-- A scored per-dashboard report (`{"dashboard", "issues", "score"}`). -/
structure DashboardReport where
  dashboard : String
  issues : List Issue
  score : Int
deriving DecidableEq, Repr

/-! ## Numeric helpers shared by the engines -/

/-- `[v for v in values if isinstance(v, (int, float))]`: the numeric
subset, dropping nulls. -/
def numericSubset (vs : List (Option ℚ)) : List ℚ :=
  vs.filterMap id

/-- `statistics.mean`: arithmetic mean. -/
def listMean (l : List ℚ) : ℚ :=
  l.sum / (l.length : ℚ)

/-- `statistics.pstdev` squared: the population variance
`Σ (x - mean)² / N`. -/
def listPVar (l : List ℚ) : ℚ :=
  ((l.map fun x => (x - listMean l) ^ 2).sum) / (l.length : ℚ)

/-- `numeric_values[-1]`; only used on lists already known nonempty. -/
def lastValue (l : List ℚ) : ℚ :=
  l.getLastD 0

/-- `len(set(numeric_values)) == 1`: some element is present and all
elements are equal. -/
def allSame : List ℚ → Bool
  | [] => false
  | h :: t => t.all fun x => decide (x = h)

/-- `v is None or v == 0` for one raw value. -/
def isNullOrZero : Option ℚ → Bool
  | none => true
  | some x => decide (x = 0)

/-- `v is not None and v < 0` for one raw value. -/
def isNegValue : Option ℚ → Bool
  | none => false
  | some x => decide (x < 0)

/-! ## Rule Engine — `QualityRules.check` (`src/dq/quality_rules.py`) -/

/-- The 0–4 issues `QualityRules.check` appends for one metric. -/
def checkMetric (name : String) (values : List (Option ℚ)) : List Issue :=
  let numeric_values := numericSubset values
  (if values.any isNullOrZero then
      [{ metric := name, issue := "Null / Zero values" }]
    else []) ++
  (if 1 < numeric_values.length ∧ allSame numeric_values then
      [{ metric := name, issue := "No variation" }]
    else []) ++
  (if values.any isNegValue then
      [{ metric := name, issue := "Negative values" }]
    else []) ++
  (match numeric_values with
    | [] => []
    | h :: t =>
        if t.foldl max h > listMean (h :: t) * 5 then
          [{ metric := name, issue := "Extremely large value detected" }]
        else [])

/-- `QualityRules.check`: the rule issues over all metrics in order. -/
def check (metrics : List (String × List (Option ℚ))) : List Issue :=
  metrics.flatMap fun p => checkMetric p.1 p.2

/-! ## Anomaly Engine — `AnomalyDetector.detect`
(`src/dq/anomaly_detector.py`) -/

/-- The issues `AnomalyDetector.detect` appends for one metric.  The
outlier test `stdev > 0 and abs(last_value - mean) > 2 * stdev` is
embedded by the equivalent squared rational comparison. -/
def detectMetric (name : String) (values : List (Option ℚ)) : List Issue :=
  let numeric_values := numericSubset values
  if numeric_values.length < 2 then []
  else
    let mean := listMean numeric_values
    let pvar := listPVar numeric_values
    let last_value := lastValue numeric_values
    (if last_value > mean * 3 then
        [{ metric := name, issue := "Sudden spike detected" }]
      else []) ++
    (if last_value < mean * (3 / 10) then
        [{ metric := name, issue := "Sudden drop detected" }]
      else []) ++
    (if 0 < pvar ∧ (last_value - mean) ^ 2 > 4 * pvar then
        [{ metric := name, issue := "Outlier detected" }]
      else [])

/-- `AnomalyDetector.detect`: the anomaly issues over all metrics. -/
def detect (metrics : List (String × List (Option ℚ))) : List Issue :=
  metrics.flatMap fun p => detectMetric p.1 p.2

/-! ## Range Validator — `Validators.validate` (`src/dq/validators.py`) -/

/-- `Validators._validate_numeric`: one "Non-numeric value" issue per raw
value that is not a number (in this value model, per `None`). -/
def validateNumeric (name : String) (values : List (Option ℚ)) :
    List Issue :=
  values.flatMap fun v =>
    match v with
    | none => [{ metric := name, issue := "Non-numeric value" }]
    | some _ => []

/-- `Validators._validate_range`: per raw value, a non-numeric value gets
an "Out-of-range values" issue (cannot be compared), and a numeric value
outside the inclusive `[min, max]` gets one too. -/
def validateRange (name : String) (values : List (Option ℚ))
    (range : ℚ × ℚ) : List Issue :=
  values.flatMap fun v =>
    match v with
    | none => [{ metric := name, issue := "Out-of-range values" }]
    | some x =>
        if range.1 ≤ x ∧ x ≤ range.2 then []
        else [{ metric := name, issue := "Out-of-range values" }]

/-- `Validators._validate_min_length` with its default `min_len=3`. -/
def validateMinLength (name : String) (values : List (Option ℚ)) :
    List Issue :=
  if values.length < 3 then
    [{ metric := name, issue := "Insufficient data points" }]
  else []

/-- `Validators.validate`: numeric, range (only when the metric has an
entry in `expected_ranges`; an empty list is Python's falsy `None`/`{}`)
and minimum-length checks per metric, in order. -/
def validate (metrics : List (String × List (Option ℚ)))
    (expected_ranges : List (String × (ℚ × ℚ))) : List Issue :=
  metrics.flatMap fun p =>
    validateNumeric p.1 p.2 ++
    (match List.lookup p.1 expected_ranges with
      | some r => validateRange p.1 p.2 r
      | none => []) ++
    validateMinLength p.1 p.2

/-! ## Score Calculator — `ScoreCalculator.calculate_score`
(`src/dq/score_calculator.py`) -/

/-- One iteration of the scoring loop: deduct 25 for critical anomalies,
15 for major issues, 5 for minor ones, matching case-insensitive
substrings of the issue name in this priority order. -/
def scoreStep (score : Int) (i : Issue) : Int :=
  let issue_name := strLower i.issue
  if strContains issue_name "spike" || strContains issue_name "drop" ||
      strContains issue_name "outlier" then score - 25
  else if strContains issue_name "null" || strContains issue_name "zero" ||
      strContains issue_name "negative" then score - 15
  else if strContains issue_name "no variation" then score - 5
  else score

/-- `ScoreCalculator.calculate_score`: fold the deductions from 100, then
clamp with `max(0, score)`. -/
def calculate_score (issues : List Issue) : Int :=
  max 0 (issues.foldl scoreStep 100)

/-- The deduction table as worded in the spec (one deduction per issue,
first matching rule wins); `calculate_score` is proved equal to
`100 - Σ` of these, clamped. -/
def issueDeduction (s : String) : Int :=
  let issue_name := strLower s
  if strContains issue_name "spike" || strContains issue_name "drop" ||
      strContains issue_name "outlier" then 25
  else if strContains issue_name "null" || strContains issue_name "zero" ||
      strContains issue_name "negative" then 15
  else if strContains issue_name "no variation" then 5
  else 0

/-! ## Test Compiler — `TestBuilder.build_tests`
(`src/tests_generator/test_builder.py`) -/

/-- The generated test function for one issue: dispatch on
case-insensitive substrings of the issue type. -/
def testCodeFor (dashboard : String) (i : Issue) : String :=
  let issue_type := strLower i.issue
  let test_name :=
    "test_" ++ safeName dashboard ++ "_" ++ safeName i.metric
  if strContains issue_type "spike" then
    "def " ++ test_name ++ "_no_spike():\n" ++
      "    assert last_value <= mean * 3\n"
  else if strContains issue_type "drop" then
    "def " ++ test_name ++ "_no_drop():\n" ++
      "    assert last_value >= mean * 0.3\n"
  else if strContains issue_type "null" || strContains issue_type "zero" then
    "def " ++ test_name ++ "_no_nulls():\n" ++
      "    assert all(v not in [None, 0] for v in values)\n"
  else if strContains issue_type "negative" then
    "def " ++ test_name ++ "_no_negative_values():\n" ++
      "    assert all(v >= 0 for v in values)\n"
  else if strContains issue_type "no variation" then
    "def " ++ test_name ++ "_variation_exists():\n" ++
      "    assert len(set(values)) > 1\n"
  else
    "def " ++ test_name ++ "_generic_quality_check():\n" ++
      "    assert False, \x27Unexpected data quality issue detected.\x27\n"

/-- `"\n".join(test_code)` over one dashboard's issues. -/
def joinCodes (dashboard : String) (issues : List Issue) : String :=
  String.intercalate "\n" (issues.map (testCodeFor dashboard))

/-- Python `dict` assignment `d[k] = v` on an insertion-ordered
association list: overwrite in place if the key exists, else append. -/
def dictInsert (k v : String) : List (String × String) →
    List (String × String)
  | [] => [(k, v)]
  | (k₀, v₀) :: rest =>
      if k₀ = k then (k, v) :: rest else (k₀, v₀) :: dictInsert k v rest

/-- `TestBuilder.build_tests`: one generated-source entry per dashboard,
keyed by dashboard name. -/
def build_tests (reports : List DashboardReport) : List (String × String) :=
  reports.foldl
    (fun acc r => dictInsert r.dashboard (joinCodes r.dashboard r.issues) acc)
    []

/-! ## Pipeline — `process_dashboard` (`src/main.py`) -/

/-- `process_dashboard`: run the three engines on the same metrics
mapping, concatenate, and score.  The AI-insight annotation step between
aggregation and scoring is an external collaborator that only adds an
`ai_insight` text to each issue in place; it does not change the
`metric`/`issue` fields the score reads, so it is omitted here. -/
def process_dashboard (name : String)
    (metrics : List (String × List (Option ℚ)))
    (expected_ranges : List (String × (ℚ × ℚ))) : DashboardReport :=
  let all_issues :=
    check metrics ++ detect metrics ++ validate metrics expected_ranges
  { dashboard := name, issues := all_issues,
    score := calculate_score all_issues }

/-! ## Helper lemmas -/

theorem scoreStep_eq_sub (s : Int) (i : Issue) :
    scoreStep s i = s - issueDeduction i.issue := by
  unfold scoreStep issueDeduction
  dsimp only
  split_ifs <;> omega

theorem foldl_scoreStep_eq (l : List Issue) (s : Int) :
    l.foldl scoreStep s = s - (l.map fun i => issueDeduction i.issue).sum := by
  induction l generalizing s with
  | nil => simp
  | cons h t ih =>
      rw [List.foldl_cons, scoreStep_eq_sub, ih]
      simp only [List.map_cons, List.sum_cons]
      omega

theorem calculate_score_eq (l : List Issue) :
    calculate_score l =
      max 0 (100 - (l.map fun i => issueDeduction i.issue).sum) := by
  unfold calculate_score
  rw [foldl_scoreStep_eq]

theorem issueDeduction_nonneg (s : String) : 0 ≤ issueDeduction s := by
  unfold issueDeduction
  dsimp only
  split_ifs <;> omega

theorem numericSubset_replicate (n : ℕ) (c : ℚ) :
    numericSubset (List.replicate n (some c)) = List.replicate n c := by
  induction n with
  | zero => rfl
  | succ k ih =>
      simp only [List.replicate_succ, numericSubset, List.filterMap_cons]
      simp only [numericSubset] at ih
      simp [ih]

theorem listMean_replicate (n : ℕ) (c : ℚ) (hn : n ≠ 0) :
    listMean (List.replicate n c) = c := by
  unfold listMean
  rw [List.sum_replicate, List.length_replicate, nsmul_eq_mul, mul_comm,
    mul_div_assoc, div_self (by exact_mod_cast hn), mul_one]

theorem listPVar_replicate (n : ℕ) (c : ℚ) (hn : n ≠ 0) :
    listPVar (List.replicate n c) = 0 := by
  unfold listPVar
  rw [listMean_replicate n c hn, List.map_replicate]
  simp

theorem getLastD_replicate (n : ℕ) (c d : ℚ) :
    (List.replicate n c).getLastD d = if n = 0 then d else c := by
  induction n generalizing d with
  | zero => simp
  | succ k ih =>
      rw [List.replicate_succ, List.getLastD_cons, ih]
      rcases Nat.eq_zero_or_pos k with h | h <;> simp [h]

theorem lastValue_replicate (n : ℕ) (c : ℚ) (hn : n ≠ 0) :
    lastValue (List.replicate n c) = c := by
  unfold lastValue
  rw [getLastD_replicate, if_neg hn]

theorem allSame_replicate (n : ℕ) (c : ℚ) (hn : n ≠ 0) :
    allSame (List.replicate n c) = true := by
  obtain ⟨k, rfl⟩ := Nat.exists_eq_succ_of_ne_zero hn
  rw [List.replicate_succ]
  unfold allSame
  simp [List.all_eq_true, List.eq_of_mem_replicate]

theorem listPVar_nonneg (l : List ℚ) : 0 ≤ listPVar l := by
  unfold listPVar
  apply div_nonneg
  · apply List.sum_nonneg
    intro x hx
    obtain ⟨y, _, rfl⟩ := List.mem_map.1 hx
    positivity
  · positivity

theorem validateNumeric_cons (m : String) (v : Option ℚ)
    (t : List (Option ℚ)) :
    validateNumeric m (v :: t) =
      (match v with
        | none => [{ metric := m, issue := "Non-numeric value" }]
        | some _ => []) ++ validateNumeric m t := by
  simp [validateNumeric]

theorem validateRange_cons (m : String) (v : Option ℚ)
    (t : List (Option ℚ)) (lo hi : ℚ) :
    validateRange m (v :: t) (lo, hi) =
      (match v with
        | none => [{ metric := m, issue := "Out-of-range values" }]
        | some x =>
            if lo ≤ x ∧ x ≤ hi then []
            else [{ metric := m, issue := "Out-of-range values" }]) ++
        validateRange m t (lo, hi) := by
  simp [validateRange]

theorem validateNumeric_count_nonnum (m : String) (vs : List (Option ℚ)) :
    (validateNumeric m vs).countP (fun i => i.issue == "Non-numeric value")
      = vs.countP (fun v => v.isNone) := by
  induction vs with
  | nil => rfl
  | cons v t ih =>
      rw [validateNumeric_cons, List.countP_append, ih, List.countP_cons]
      cases v <;> simp [Option.isNone] <;> omega

theorem validateNumeric_count_oor (m : String) (vs : List (Option ℚ)) :
    (validateNumeric m vs).countP
      (fun i => i.issue == "Out-of-range values") = 0 := by
  induction vs with
  | nil => rfl
  | cons v t ih =>
      rw [validateNumeric_cons, List.countP_append, ih]
      cases v <;> simp

theorem validateRange_count_nonnum (m : String) (vs : List (Option ℚ))
    (lo hi : ℚ) :
    (validateRange m vs (lo, hi)).countP
      (fun i => i.issue == "Non-numeric value") = 0 := by
  induction vs with
  | nil => rfl
  | cons v t ih =>
      rw [validateRange_cons, List.countP_append, ih]
      cases v with
      | none => simp
      | some x => by_cases hx : lo ≤ x ∧ x ≤ hi <;> simp [hx]

theorem validateRange_count_oor (m : String) (vs : List (Option ℚ))
    (lo hi : ℚ) :
    (validateRange m vs (lo, hi)).countP
        (fun i => i.issue == "Out-of-range values")
      = vs.countP (fun v => v.isNone) +
        vs.countP (fun v => match v with
          | none => false
          | some x => decide (x < lo ∨ hi < x)) := by
  induction vs with
  | nil => rfl
  | cons v t ih =>
      rw [validateRange_cons, List.countP_append, ih, List.countP_cons,
        List.countP_cons]
      cases v with
      | none => simp [Option.isNone] <;> omega
      | some x =>
          have hsplit : (¬ (lo ≤ x ∧ x ≤ hi)) ↔ (x < lo ∨ hi < x) := by
            rw [not_and_or, not_le, not_le]
          by_cases hx : lo ≤ x ∧ x ≤ hi
          · have hout : ¬ (x < lo ∨ hi < x) := by
              rw [← hsplit]
              exact not_not_intro hx
            simp [hx, hout]
          · have hout : (x < lo ∨ hi < x) := hsplit.1 hx
            simp [hx, hout]
            omega

theorem validateMinLength_count_nonnum (m : String) (vs : List (Option ℚ)) :
    (validateMinLength m vs).countP
      (fun i => i.issue == "Non-numeric value") = 0 := by
  unfold validateMinLength
  split_ifs <;> simp

theorem validateMinLength_count_oor (m : String) (vs : List (Option ℚ)) :
    (validateMinLength m vs).countP
      (fun i => i.issue == "Out-of-range values") = 0 := by
  unfold validateMinLength
  split_ifs <;> simp

theorem dictInsert_of_not_mem (k v : String)
    (acc : List (String × String)) (h : ∀ p ∈ acc, p.1 ≠ k) :
    dictInsert k v acc = acc ++ [(k, v)] := by
  induction acc with
  | nil => rfl
  | cons p rest ih =>
      obtain ⟨k₀, v₀⟩ := p
      rw [dictInsert, if_neg (h (k₀, v₀) (List.mem_cons_self _ _)),
        ih fun q hq => h q (List.mem_cons_of_mem _ hq)]
      rfl

theorem foldl_dictInsert_eq (reports : List DashboardReport)
    (acc : List (String × String))
    (hnd : (reports.map DashboardReport.dashboard).Nodup)
    (hdisj : ∀ r ∈ reports, ∀ p ∈ acc, p.1 ≠ r.dashboard) :
    reports.foldl
        (fun a r => dictInsert r.dashboard (joinCodes r.dashboard r.issues) a)
        acc =
      acc ++ reports.map
        (fun r => (r.dashboard, joinCodes r.dashboard r.issues)) := by
  induction reports generalizing acc with
  | nil => simp
  | cons r rs ih =>
      rw [List.foldl_cons,
        dictInsert_of_not_mem _ _ _
          fun p hp => hdisj r (List.mem_cons_self _ _) p hp]
      rw [List.map_cons] at hnd
      have hnd' := (List.nodup_cons.1 hnd).2
      have hhead := (List.nodup_cons.1 hnd).1
      rw [ih (acc ++ [(r.dashboard, joinCodes r.dashboard r.issues)]) hnd'
        ?_]
      · simp
      · intro r' hr' p hp
        rcases List.mem_append.1 hp with hp | hp
        · exact hdisj r' (List.mem_cons_of_mem _ hr') p hp
        · rw [List.mem_singleton.1 hp]
          intro heq
          apply hhead
          have hm : r'.dashboard ∈ List.map DashboardReport.dashboard rs :=
            List.mem_map.2 ⟨r', hr', rfl⟩
          rw [← heq] at hm
          exact hm

theorem build_tests_eq_map (reports : List DashboardReport)
    (hnd : (reports.map DashboardReport.dashboard).Nodup) :
    build_tests reports =
      reports.map
        (fun r => (r.dashboard, joinCodes r.dashboard r.issues)) := by
  unfold build_tests
  rw [foldl_dictInsert_eq reports [] hnd fun r _ p hp => absurd hp
    (List.not_mem_nil p)]
  rfl

/-- Membership in the one-element conditional lists the engines build. -/
theorem mem_ite_singleton {p : Prop} [Decidable p] (a b : Issue) :
    (a ∈ if p then [b] else []) ↔ p ∧ a = b := by
  split_ifs with h <;> simp [h]

/-- The squared rational form of the outlier test used in the embedding
is equivalent to the source's standard-deviation form
`stdev > 0 and abs(x) > 2 * stdev` with `stdev = sqrt v`. -/
theorem outlier_cond_iff (x v : ℚ) (hv : 0 ≤ v) :
    (0 < v ∧ x ^ 2 > 4 * v) ↔
      (0 < Real.sqrt (v : ℝ) ∧ |(x : ℝ)| > 2 * Real.sqrt (v : ℝ)) := by
  have hvr : (0 : ℝ) ≤ (v : ℝ) := by exact_mod_cast hv
  have hpos : (0 < Real.sqrt (v : ℝ)) ↔ 0 < v := by
    rw [Real.sqrt_pos]
    exact_mod_cast Iff.rfl
  have habs : |(x : ℝ)| = Real.sqrt ((x : ℝ) ^ 2) :=
    (Real.sqrt_sq_eq_abs (x : ℝ)).symm
  have htwo : 2 * Real.sqrt (v : ℝ) = Real.sqrt (4 * (v : ℝ)) := by
    rw [show (4 : ℝ) * (v : ℝ) = 2 ^ 2 * (v : ℝ) by ring,
      Real.sqrt_mul (by positivity), Real.sqrt_sq (by norm_num)]
  have hiff : (2 * Real.sqrt (v : ℝ) < |(x : ℝ)|) ↔ 4 * v < x ^ 2 := by
    rw [habs, htwo, Real.sqrt_lt_sqrt_iff (by positivity)]
    constructor
    · intro h
      exact_mod_cast h
    · intro h
      exact_mod_cast h
  constructor
  · intro ⟨h1, h2⟩
    exact ⟨hpos.2 h1, hiff.2 h2⟩
  · intro ⟨h1, h2⟩
    exact ⟨hpos.1 h1, hiff.1 h2⟩

/-! ## Claim theorems -/

/-- C3: `calculate_score` starts at 100 and, for each issue, applies
exactly one deduction chosen by the first matching rule on the
case-insensitive issue string (spike/drop/outlier → 25,
null/zero/negative → 15, "no variation" → 5, otherwise 0), then clamps
the result to be ≥ 0. -/
theorem calculate_score_first_match_deductions (issues : List Issue) :
    calculate_score issues =
      max 0 (100 - (issues.map fun i => issueDeduction i.issue).sum) :=
  calculate_score_eq issues

/-- C4: for every issue list the score is an integer in `[0, 100]`, and
the empty issue list scores exactly 100. -/
theorem calculate_score_bounds :
    (∀ issues : List Issue,
        0 ≤ calculate_score issues ∧ calculate_score issues ≤ 100) ∧
    calculate_score [] = 100 := by
  constructor
  · intro issues
    rw [calculate_score_eq]
    refine ⟨le_max_left 0 _, ?_⟩
    have hsum : 0 ≤ (issues.map fun i => issueDeduction i.issue).sum := by
      apply List.sum_nonneg
      intro x hx
      obtain ⟨i, _, rfl⟩ := List.mem_map.1 hx
      exact issueDeduction_nonneg i.issue
    apply max_le <;> omega
  · decide

/-- C5: the score depends only on the multiset of taxonomy strings: two
issue lists whose `issue`-string sequences are permutations of each other
(metric names arbitrary) get equal scores. -/
theorem calculate_score_perm_invariant (l₁ l₂ : List Issue)
    (h : (l₁.map Issue.issue).Perm (l₂.map Issue.issue)) :
    calculate_score l₁ = calculate_score l₂ := by
  rw [calculate_score_eq, calculate_score_eq]
  have e₁ : (l₁.map fun i => issueDeduction i.issue) =
      (l₁.map Issue.issue).map issueDeduction := by
    simp [List.map_map, Function.comp]
  have e₂ : (l₂.map fun i => issueDeduction i.issue) =
      (l₂.map Issue.issue).map issueDeduction := by
    simp [List.map_map, Function.comp]
  rw [e₁, e₂, (h.map issueDeduction).sum_eq]

/-- Witness for C5 at concrete inputs: swapping the two issues (and
renaming the metrics) leaves the score unchanged. -/
theorem calculate_score_perm_invariant_witness :
    ((([⟨"A", "Sudden spike detected"⟩, ⟨"B", "No variation"⟩] :
        List Issue).map Issue.issue).Perm
      (([⟨"C", "No variation"⟩, ⟨"D", "Sudden spike detected"⟩] :
        List Issue).map Issue.issue)) ∧
    calculate_score
        [⟨"A", "Sudden spike detected"⟩, ⟨"B", "No variation"⟩] =
      calculate_score
        [⟨"C", "No variation"⟩, ⟨"D", "Sudden spike detected"⟩] :=
  ⟨by decide,
   calculate_score_perm_invariant
     [⟨"A", "Sudden spike detected"⟩, ⟨"B", "No variation"⟩]
     [⟨"C", "No variation"⟩, ⟨"D", "Sudden spike detected"⟩] (by decide)⟩

/-- C6 (Scenario A): on `{"Revenue": [1000, 1050, 1020, 5200]}` the Rule
Engine and the Anomaly Engine both emit zero issues: 5200 exceeds neither
3× nor 5× the mean 1817.5, the deviation 3382.5 stays within two
population standard deviations, and no null/zero, negative or
no-variation rule fires. -/
theorem scenarioA_revenue_zero_issues :
    check [("Revenue", [some 1000, some 1050, some 1020, some 5200])] = [] ∧
    detect [("Revenue", [some 1000, some 1050, some 1020, some 5200])]
      = [] := by
  constructor
  · simp only [check, checkMetric, numericSubset, listMean, allSame,
      List.flatMap_cons, List.flatMap_nil, List.filterMap_cons,
      List.filterMap_nil]
    norm_num [isNullOrZero, isNegValue]
  · simp only [detect, detectMetric, numericSubset, listMean, listPVar,
      lastValue, List.flatMap_cons, List.flatMap_nil, List.filterMap_cons,
      List.filterMap_nil]
    norm_num

/-- C1 fails as stated: the constant non-null series `[-1, -1]` (length 2,
every value the same number) makes the Anomaly Engine emit a spike issue,
because `last_value > mean * 3` reads `-1 > -3` for a negative constant. -/
theorem constant_negative_series_counterexample :
    ([some (-1 : ℚ), some (-1)] = List.replicate 2 (some (-1 : ℚ))) ∧
    (∃ i ∈ detect [("M", [some (-1 : ℚ), some (-1)])],
        i.issue = "Sudden spike detected") := by
  have hd : detect [("M", [some (-1 : ℚ), some (-1)])] =
      [⟨"M", "Sudden spike detected"⟩, ⟨"M", "Sudden drop detected"⟩] := by
    simp only [detect, detectMetric, numericSubset, listMean, listPVar,
      lastValue, List.flatMap_cons, List.flatMap_nil, List.filterMap_cons,
      List.filterMap_nil]
    norm_num
  refine ⟨rfl, ⟨"M", "Sudden spike detected"⟩, ?_, rfl⟩
  rw [hd]
  exact List.mem_cons_self _ _

/-- C1 (amended): for every metric whose series is a constant non-null
numeric series of length ≥ 2 with a non-negative constant value, the Rule
Engine emits a "No variation" issue and the Anomaly Engine emits no
issue at all (for a negative constant the spike and drop rules fire, see
the counterexample). -/
theorem constant_series_no_variation_no_anomaly (m : String) (c : ℚ)
    (n : ℕ) (hn : 2 ≤ n) (hc : 0 ≤ c) :
    (∃ i ∈ check [(m, List.replicate n (some c))], i.issue = "No variation") ∧
    detect [(m, List.replicate n (some c))] = [] := by
  have hn0 : n ≠ 0 := by omega
  have hsub := numericSubset_replicate n c
  constructor
  · refine ⟨⟨m, "No variation"⟩, ?_, rfl⟩
    simp only [check, List.flatMap_cons, List.flatMap_nil, List.append_nil,
      checkMetric, hsub]
    have hcond : 1 < (List.replicate n c).length ∧
        allSame (List.replicate n c) = true := by
      refine ⟨?_, allSame_replicate n c hn0⟩
      rw [List.length_replicate]
      omega
    refine List.mem_append_left _ (List.mem_append_left _
      (List.mem_append_right _ ?_))
    rw [if_pos hcond]
    exact List.mem_singleton_self _
  · simp only [detect, List.flatMap_cons, List.flatMap_nil, List.append_nil,
      detectMetric, hsub, listMean_replicate n c hn0,
      listPVar_replicate n c hn0, lastValue_replicate n c hn0,
      List.length_replicate]
    have h1 : ¬ (c > c * 3) := by linarith
    have h2 : ¬ (c < c * (3 / 10)) := by linarith
    have h3 : ¬ ((0 : ℚ) < 0 ∧ (c - c) ^ 2 > 4 * 0) := by
      intro h
      exact lt_irrefl 0 h.1
    rw [if_neg (by omega : ¬ n < 2), if_neg h1, if_neg h2, if_neg h3]
    simp

/-- Witness for the amended C1 at `{"Margin": [25, 25, 25, 25]}`
(Scenario C's metric). -/
theorem constant_series_no_variation_no_anomaly_witness :
    (2 ≤ 4 ∧ (0 : ℚ) ≤ 25) ∧
    (∃ i ∈ check [("Margin", List.replicate 4 (some (25 : ℚ)))],
        i.issue = "No variation") ∧
    detect [("Margin", List.replicate 4 (some (25 : ℚ)))] = [] :=
  ⟨⟨by decide, by decide⟩,
   (constant_series_no_variation_no_anomaly "Margin" 25 4 (by decide)
      (by decide)).1,
   (constant_series_no_variation_no_anomaly "Margin" 25 4 (by decide)
      (by decide)).2⟩

/-- C2: `detect` skips a metric entirely when its numeric subset has
fewer than 2 elements; otherwise, with `mean` the arithmetic mean,
`stdev` the population standard deviation and `last_value` the last
element of the numeric subset, it emits a spike issue iff
`last_value > mean * 3`, a drop issue iff `last_value < mean * 0.3`, and
an outlier issue iff `stdev > 0` and `abs(last_value - mean) > 2 * stdev`,
each independently. -/
theorem detect_characterization (m : String) (vs : List (Option ℚ)) :
    ((numericSubset vs).length < 2 → detect [(m, vs)] = []) ∧
    (2 ≤ (numericSubset vs).length →
      (((⟨m, "Sudden spike detected"⟩ : Issue) ∈ detect [(m, vs)]) ↔
        lastValue (numericSubset vs) > listMean (numericSubset vs) * 3) ∧
      (((⟨m, "Sudden drop detected"⟩ : Issue) ∈ detect [(m, vs)]) ↔
        lastValue (numericSubset vs) <
          listMean (numericSubset vs) * (3 / 10)) ∧
      (((⟨m, "Outlier detected"⟩ : Issue) ∈ detect [(m, vs)]) ↔
        (0 < Real.sqrt ((listPVar (numericSubset vs) : ℚ) : ℝ) ∧
          |((lastValue (numericSubset vs) : ℚ) : ℝ) -
              ((listMean (numericSubset vs) : ℚ) : ℝ)| >
            2 * Real.sqrt ((listPVar (numericSubset vs) : ℚ) : ℝ)))) := by
  have hd : detect [(m, vs)] = detectMetric m vs := by
    simp [detect]
  constructor
  · intro hlt
    rw [hd]
    unfold detectMetric
    dsimp only
    rw [if_pos hlt]
  · intro hge
    have hnot : ¬ (numericSubset vs).length < 2 := by omega
    rw [hd]
    unfold detectMetric
    dsimp only
    rw [if_neg hnot]
    have hsqrt := outlier_cond_iff
      (lastValue (numericSubset vs) - listMean (numericSubset vs))
      (listPVar (numericSubset vs)) (listPVar_nonneg _)
    push_cast at hsqrt
    refine ⟨?_, ?_, ?_⟩ <;>
      simp only [List.mem_append, mem_ite_singleton, Issue.mk.injEq] <;>
      simp [hsqrt]

/-- Witness for C2 at `[1, 1, 10]`: the theorem's characterizations apply
(here the spike membership test; `10 > 4 * 3` is false so no spike). -/
theorem detect_characterization_witness :
    (2 ≤ (numericSubset [some 1, some 1, some 10]).length) ∧
    (((⟨"m", "Sudden spike detected"⟩ : Issue) ∈
        detect [("m", [some 1, some 1, some 10])]) ↔
      lastValue (numericSubset [some 1, some 1, some 10]) >
        listMean (numericSubset [some 1, some 1, some 10]) * 3) :=
  ⟨by decide,
   ((detect_characterization "m" [some 1, some 1, some 10]).2
      (by decide)).1⟩

/-- C7: for a metric with an entry in `expected_ranges`, `validate`
processes raw values one by one: every non-numeric value (the null
marker) yields one "Non-numeric value" issue and one "Out-of-range
values" issue, and every numeric value strictly outside the inclusive
`[min, max]` yields one "Out-of-range values" issue — each value-level
violation a separate issue, so the issue counts equal the value
counts. -/
theorem validate_per_value_issue_counts (m : String) (vs : List (Option ℚ))
    (ranges : List (String × (ℚ × ℚ))) (lo hi : ℚ)
    (h : List.lookup m ranges = some (lo, hi)) :
    ((validate [(m, vs)] ranges).countP
        (fun i => i.issue == "Non-numeric value")
      = vs.countP (fun v => v.isNone)) ∧
    ((validate [(m, vs)] ranges).countP
        (fun i => i.issue == "Out-of-range values")
      = vs.countP (fun v => v.isNone) +
        vs.countP (fun v => match v with
          | none => false
          | some x => decide (x < lo ∨ hi < x))) := by
  have hv : validate [(m, vs)] ranges =
      validateNumeric m vs ++ validateRange m vs (lo, hi) ++
        validateMinLength m vs := by
    simp [validate, h]
  rw [hv]
  simp only [List.countP_append]
  constructor
  · rw [validateNumeric_count_nonnum, validateRange_count_nonnum,
      validateMinLength_count_nonnum]
    omega
  · rw [validateNumeric_count_oor, validateRange_count_oor,
      validateMinLength_count_oor]
    omega

/-- Witness for C7: a metric with three non-numeric values and a range
yields three "Non-numeric value" issues (and three out-of-range ones). -/
theorem validate_per_value_issue_counts_witness :
    (List.lookup "M" [("M", ((0 : ℚ), (10 : ℚ)))] = some (0, 10)) ∧
    ((validate [("M", [none, none, none])] [("M", (0, 10))]).countP
      (fun i => i.issue == "Non-numeric value") = 3) ∧
    ((validate [("M", [none, none, none])] [("M", (0, 10))]).countP
      (fun i => i.issue == "Out-of-range values") = 3) :=
  ⟨by decide,
   ((validate_per_value_issue_counts "M" [none, none, none]
      [("M", (0, 10))] 0 10 (by decide)).1).trans (by decide),
   ((validate_per_value_issue_counts "M" [none, none, none]
      [("M", (0, 10))] 0 10 (by decide)).2).trans (by decide)⟩

/-- C8: every issue whose taxonomy string contains "drop" but not
"spike" (case-insensitively) compiles to an assertion requiring
`last_value >= mean * 0.3`, named from the lower-cased, space-replaced
dashboard and metric names. -/
theorem drop_issue_compiles_to_lower_bound (dashboard : String) (i : Issue)
    (hdrop : strContains (strLower i.issue) "drop" = true)
    (hspike : strContains (strLower i.issue) "spike" = false) :
    testCodeFor dashboard i =
      "def " ++ ("test_" ++ safeName dashboard ++ "_" ++ safeName i.metric)
        ++ "_no_drop():\n" ++ "    assert last_value >= mean * 0.3\n" := by
  unfold testCodeFor
  dsimp only
  rw [hspike, hdrop]
  simp

/-- Witness for C8: the issue `{"issue": "Sudden drop detected"}` for
metric "SiteVisits" on dashboard "Marketing Performance" compiles to
exactly this assertion. -/
theorem drop_issue_compiles_to_lower_bound_witness :
    (strContains (strLower "Sudden drop detected") "drop" = true) ∧
    (strContains (strLower "Sudden drop detected") "spike" = false) ∧
    testCodeFor "Marketing Performance"
        ⟨"SiteVisits", "Sudden drop detected"⟩ =
      "def test_marketing_performance_sitevisits_no_drop():\n    assert last_value >= mean * 0.3\n" :=
  ⟨by decide, by decide,
   (drop_issue_compiles_to_lower_bound "Marketing Performance"
      ⟨"SiteVisits", "Sudden drop detected"⟩ (by decide)
      (by decide)).trans (by decide)⟩

/-- C9: a dashboard whose metrics mapping is empty yields an empty issue
list from the composed engines and a perfect score of 100 (the pipeline
is total: no exception is modelled or needed). -/
theorem empty_metrics_empty_issues_perfect_score (name : String)
    (expected_ranges : List (String × (ℚ × ℚ))) :
    (process_dashboard name [] expected_ranges).issues = [] ∧
    (process_dashboard name [] expected_ranges).score = 100 := by
  constructor <;> rfl

/-- C10: every dashboard entry given to `build_tests` appears as a key in
the output, even when its issue list is empty, in which case its
generated source text is the empty string (the dashboard is not
omitted). -/
theorem build_tests_keeps_zero_issue_dashboards
    (reports : List DashboardReport) (r : DashboardReport)
    (hnd : (reports.map DashboardReport.dashboard).Nodup)
    (hr : r ∈ reports) :
    r.dashboard ∈ (build_tests reports).map Prod.fst ∧
    (r.issues = [] → (r.dashboard, "") ∈ build_tests reports) := by
  rw [build_tests_eq_map reports hnd]
  constructor
  · rw [List.map_map]
    exact List.mem_map.2 ⟨r, hr, rfl⟩
  · intro hempty
    have hjoin : joinCodes r.dashboard r.issues = "" := by
      rw [hempty]
      rfl
    exact List.mem_map.2 ⟨r, hr, by rw [hjoin]⟩

/-- Witness for C10: a single dashboard with no issues still gets an
entry, mapped to the empty source text. -/
theorem build_tests_keeps_zero_issue_dashboards_witness :
    ("D" ∈ (build_tests [⟨"D", [], 100⟩]).map Prod.fst) ∧
    (("D", "") ∈ build_tests [⟨"D", [], 100⟩]) :=
  ⟨(build_tests_keeps_zero_issue_dashboards [⟨"D", [], 100⟩]
      ⟨"D", [], 100⟩ (by decide) (by decide)).1,
   (build_tests_keeps_zero_issue_dashboards [⟨"D", [], 100⟩]
      ⟨"D", [], 100⟩ (by decide) (by decide)).2 rfl⟩

end DQG
